import Mathlib

/-!
Verification development for the retaggr repository.

Embedded source files:
* `src/src/retaggr/boorus/saucenao.py` — the SauceNao engine.
* `src/src/retaggr/core.py` — the `ReverseSearch` dispatcher.

The other engine implementations (Danbooru, E621, Iqdb, Paheal) are not part
of the sources; where the dispatcher needs them they are modelled abstractly
through the engine interface described by the specification.

Conventions of the embedding:
* Python exceptions are modelled with `Except PyError`.
* Python `set` of strings is modelled with `Finset String`.
* A Python `dict` keyed by strings is modelled with an association list
  `List (String × _)` in insertion order; dict iteration yields each key once
  with its unique value, modelled by iterating the pairs.
* A similarity value, stored by the API as a decimal string and read through
  `float(...)`, is modelled by the exact rational value it denotes; the
  comparisons performed by the code are exact at the magnitudes involved.
-/

/-- Exception kinds raised by the embedded code.  The first three are the
library's own error classes (`retaggr.errors`); the last three are Python
built-in exceptions that the code can raise. -/
inductive PyError where
  | notAValidEngine
  | missingAPIKeys
  | notAvailableSearchOption
  | typeError
  | nameError
  | indexError
deriving DecidableEq, Repr

instance {ε α : Type} [DecidableEq ε] [DecidableEq α] : DecidableEq (Except ε α) := fun a b =>
  match a, b with
  | Except.ok a, Except.ok b => decidable_of_iff (a = b) (by simp)
  | Except.error a, Except.error b => decidable_of_iff (a = b) (by simp)
  | Except.ok _, Except.error _ => isFalse (by simp)
  | Except.error _, Except.ok _ => isFalse (by simp)

/-- One candidate entry of a SauceNao JSON response: the fields the code reads
are `entry["header"]["index_id"]`, `entry["header"]["similarity"]` (a decimal
string, modelled by the rational value it denotes) and
`entry["data"]["ext_urls"]`. -/
structure SnEntry where
  index_id : Nat
  similarity : Rat
  ext_urls : List String
deriving DecidableEq, Repr

/-- The parts of a SauceNao JSON response read by `index_parser`:
`json["header"]["minimum_similarity"]` and `json["results"]`. -/
structure SnResponse where
  minimum_similarity : Rat
  results : List SnEntry
deriving DecidableEq, Repr

/-- The dictionary returned by `index_parser`: `{"tags": None, "source": source}`
where `source` is a URL string or `None`.  Tag extraction is unimplemented in
the source (`tags` is always `None`). -/
structure SnParsed where
  tags : Option (List String)
  source : Option String
deriving DecidableEq, Repr

/-- The SauceNao engine object (saucenao.py): its only instance attribute is
the API key stored by `__init__`. -/
structure SauceNao where
  api_key : String
deriving DecidableEq, Repr

namespace SauceNao

/-- Class attribute `download_required = False` (saucenao.py line 16). -/
def download_required : Bool := false

/-- Class attribute `tag_indexes = set([5, 9, 12, 26, 29])` (saucenao.py
line 19); metadata only, not read by any method. -/
def tag_indexes : Finset Nat := {5, 9, 12, 26, 29}

/-- Class attribute `source_indexes = [5, 16, 37, 34]` (saucenao.py line 32):
source indexes in preferred order, position 0 most preferred. -/
def source_indexes : List Nat := [5, 16, 37, 34]

/-- The filter comprehension of `index_parser` (saucenao.py line 77): keep the
entries whose `index_id` is in `source_indexes` and whose similarity strictly
exceeds the response's `minimum_similarity`. -/
def sourceResults (json : SnResponse) : List SnEntry :=
  json.results.filter
    (fun e => source_indexes.contains e.index_id
      && decide (json.minimum_similarity < e.similarity))

/-- `SauceNao.index_parser` (saucenao.py lines 65-89), embedded as
`indexParser`.  After the filter, the selection loop's first statement reads
the bare name `source_indexes` (line 82), which is unbound inside the method
body (the attribute is only reachable as `self.source_indexes`), so the first
iteration raises `NameError`; with no eligible entry the loop body never runs
and the method returns `{"tags": None, "source": None}`. -/
def indexParser (json : SnResponse) : Except PyError SnParsed :=
  match sourceResults json with
  | [] => Except.ok { tags := none, source := none }
  | _ :: _ => Except.error PyError.nameError

/-- The selection loop of `index_parser` (saucenao.py lines 79-85) under the
charitable reading that the bare `source_indexes` of line 82 denotes
`self.source_indexes`; everything else is verbatim: starting from
`source = None` and `source_priority = len(source_indexes)`, an entry updates
the source and the priority only when `source_priority < list_index`, and on
an update `entry["data"]["ext_urls"][0]` raises `IndexError` when the list is
empty. -/
def selectLoop : List SnEntry → Option String → Nat → Except PyError (Option String)
  | [], source, _ => Except.ok source
  | e :: rest, source, source_priority =>
    let list_index := source_indexes.indexOf e.index_id
    if source_priority < list_index then
      match e.ext_urls with
      | [] => Except.error PyError.indexError
      | u :: _ => selectLoop rest (some u) list_index
    else
      selectLoop rest source source_priority

/-- `index_parser` under the charitable reading of `selectLoop`. -/
def indexParserSelfBound (json : SnResponse) : Except PyError SnParsed :=
  (selectLoop (sourceResults json) none source_indexes.length).map
    (fun s => { tags := none, source := s })

/-- The `async def search_image_source` of SauceNao issues one HTTP request;
calling it WITHOUT `await` — as `SauceNao.search_image` does on line 49 —
produces a coroutine object, not the JSON dictionary the request would
return.  The constructor records the request the coroutine would perform:
`db=999`, `output_type=2`, the API key and the searched URL. -/
inductive SnCoroutine where
  | coroutine (request_url : String) (db : String) (api_key : String)
      (output_type : String) (url : String)
deriving DecidableEq, Repr

/-- The unawaited call `self.search_image_source(url)` (saucenao.py line 49). -/
def search_image_source_unawaited (sn : SauceNao) (url : String) : SnCoroutine :=
  SnCoroutine.coroutine "https://saucenao.com/search.php" "999" sn.api_key "2" url

/-- Python subscription `x["tags"]` applied to the value produced by the
unawaited call: a coroutine object is not subscriptable, so it raises
`TypeError`. -/
def subscriptTags : SnCoroutine → Except PyError (Option (List String))
  | SnCoroutine.coroutine _ _ _ _ _ => Except.error PyError.typeError

/-- `SauceNao.search_image` (saucenao.py lines 48-49):
`return self.search_image_source(url)["tags"]`. -/
def search_image (sn : SauceNao) (url : String) : Except PyError (Option (List String)) :=
  subscriptTags (sn.search_image_source_unawaited url)

/-- `SauceNao.search_tag` (saucenao.py lines 62-63): unconditionally raises
`NotAvailableSearchOption`. -/
def search_tag (_sn : SauceNao) (_tag : String) : Except PyError SnParsed :=
  Except.error PyError.notAvailableSearchOption

end SauceNao

/-- The synthetic response of the specification's source-selection test:
`minimum_similarity = 50`; one candidate at similarity 40 with an index in the
priority list (excluded by the threshold), one at similarity 60 with index 5
(priority rank 0) and one at similarity 70 with index 37 (priority rank 2). -/
def snSynthetic : SnResponse :=
  { minimum_similarity := 50
  , results :=
      [ { index_id := 34, similarity := 40, ext_urls := ["https://example.test/low"] }
      , { index_id := 5, similarity := 60, ext_urls := ["https://example.test/pixiv"] }
      , { index_id := 37, similarity := 70, ext_urls := ["https://example.test/mangadex"] } ] }

/-- Modelled from the spec: the per-engine search result, `{tags, sources}`
sets of strings (spec section 3, SearchResult).  The engine implementations
other than SauceNao (Danbooru, E621, Iqdb, Paheal) are not among the sources,
so an engine is modelled abstractly through the interface the dispatcher
uses. -/
structure EngineResult where
  tags : Finset String
  source : Finset String
deriving DecidableEq

/-- Modelled from the spec: an engine as the dispatcher sees it — its
`download_required` flag and the outcome of `await engine.search_image(url)`
(an engine call may raise, which the dispatcher does not catch). -/
structure Engine where
  download_required : Bool
  run : String → Except PyError EngineResult

/-- The `ReverseSearch` dispatcher object: its `accessible_engines` dict,
modelled as an association list in insertion order with unique keys. -/
structure ReverseSearch where
  accessible_engines : List (String × Engine)

namespace ReverseSearch

/-- Class attribute `_all_engines` (core.py lines 24-30). -/
def all_engines : List String := ["danbooru", "e621", "iqdb", "paheal", "saucenao"]

/-- `ReverseSearch.search_image` (core.py lines 102-118): raise
`NotAValidEngineException` for a name outside `_all_engines`, raise
`MissingAPIKeysException` for a valid name absent from `accessible_engines`,
otherwise delegate to the engine and return its result unchanged. -/
def search_image (rs : ReverseSearch) (booru : String) (url : String) :
    Except PyError EngineResult :=
  if ¬ all_engines.contains booru then
    Except.error PyError.notAValidEngine
  else
    match rs.accessible_engines.lookup booru with
    | none => Except.error PyError.missingAPIKeys
    | some engine => engine.run url

end ReverseSearch

/-- One callback invocation of `search_image_source` (core.py line 99):
`await callback(booru, set(result["tags"]), result["source"])` — the engine
name with that engine's own tag set and source, not the accumulated result. -/
structure CallbackCall where
  booru : String
  tags : Finset String
  source : Finset String
deriving DecidableEq

/-- Observable outcome of one `search_image_source` call: the engines whose
search was invoked, in order; the callback invocations, in order (empty when
no callback was supplied); and the returned `{"tags", "source"}` pair, or the
propagated exception. -/
structure SisOutput where
  invoked : List String
  calls : List CallbackCall
  outcome : Except PyError (Finset String × Finset String)

/-- The engine loop of `search_image_source` (core.py lines 90-99), with the
accumulating tag and source sets, the invocation record and the callback
record passed explicitly.  Per iteration: an engine whose `download_required`
is true is skipped unless `download` is set (lines 91-93); otherwise
`search_image(booru, url)` runs — its name check can fail for a key outside
`_all_engines`, its registry check cannot fail since `booru` is a key of the
dict being iterated, so it amounts to `engine.run url` — an exception ends
the loop (line 94); on success the tags are merged (line 95), the source is
merged when non-empty (lines 96-97, Python truthiness of a set), and the
callback, when supplied, receives the per-engine values (lines 98-99). -/
def sisLoop (url : String) (download : Bool) (hasCallback : Bool) :
    List (String × Engine) → Finset String → Finset String →
      List String → List CallbackCall → SisOutput
  | [], tags, source, inv, calls =>
    { invoked := inv, calls := calls, outcome := Except.ok (tags, source) }
  | (booru, engine) :: rest, tags, source, inv, calls =>
    if engine.download_required && !download then
      sisLoop url download hasCallback rest tags source inv calls
    else
      match (if ¬ ReverseSearch.all_engines.contains booru then
               Except.error PyError.notAValidEngine
             else engine.run url : Except PyError EngineResult) with
      | Except.error e =>
        { invoked := inv ++ [booru], calls := calls, outcome := Except.error e }
      | Except.ok r =>
        sisLoop url download hasCallback rest
          (tags ∪ r.tags)
          (if r.source.Nonempty then source ∪ r.source else source)
          (inv ++ [booru])
          (if hasCallback then
            calls ++ [{ booru := booru, tags := r.tags, source := r.source }] else calls)

namespace ReverseSearch

/-- `ReverseSearch.search_image_source` (core.py lines 58-100).  The
`skip_saucenao` parameter of the source is accepted and never read by the
body, so it is omitted.  The callback is modelled by whether one was supplied
together with the record of its invocations. -/
def search_image_source (rs : ReverseSearch) (url : String)
    (download : Bool) (hasCallback : Bool) : SisOutput :=
  sisLoop url download hasCallback rs.accessible_engines ∅ ∅ [] []

/-- `ReverseSearch.reverse_search` (core.py lines 48-56):
`result = await self.search_image_source(url, callback)` — the `download`
argument is accepted but NOT forwarded, so the inner call runs with its
default `download=False`; the returned set is a copy of `result["tags"]`. -/
def reverse_search (rs : ReverseSearch) (url : String)
    (hasCallback : Bool) (_download : Bool) : Except PyError (Finset String) :=
  match (rs.search_image_source url false hasCallback).outcome with
  | Except.error e => Except.error e
  | Except.ok r => Except.ok r.1

/-- State-passing form of the dispatch methods: none of them assigns to
`self`, so each returns the state it was given (core.py lines 48-118 contain
no write to `self.accessible_engines` or `self.config`). -/
def search_image_source_st (rs : ReverseSearch) (url : String)
    (download : Bool) (hasCallback : Bool) : SisOutput × ReverseSearch :=
  (rs.search_image_source url download hasCallback, rs)

/-- State-passing form of `search_image`; see `search_image_source_st`. -/
def search_image_st (rs : ReverseSearch) (booru : String) (url : String) :
    Except PyError EngineResult × ReverseSearch :=
  (rs.search_image booru url, rs)

/-- State-passing form of `reverse_search`; see `search_image_source_st`. -/
def reverse_search_st (rs : ReverseSearch) (url : String)
    (hasCallback : Bool) (download : Bool) :
    Except PyError (Finset String) × ReverseSearch :=
  (rs.reverse_search url hasCallback download, rs)

end ReverseSearch

/-- The configuration object as `__init__` probes it with `hasattr`: each
field is present or absent; values other than the SauceNao API key do not
influence the dispatcher itself. -/
structure ReverseSearchConfig where
  min_score : Option Rat
  danbooru_username : Option String
  danbooru_api_key : Option String
  e621_username : Option String
  app_name : Option String
  version : Option String
  saucenao_api_key : Option String

/-- The SauceNao engine as an entry of the registry: `download_required` is
the class attribute `False`; a search runs `SauceNao.search_image`, which
always raises (see `c10_saucenao_search_image_aborts`), so the success arm —
which would have to read tags and source out of the returned value — is
unreachable and its placeholder value is never produced. -/
def SauceNao.engine (sn : SauceNao) : Engine :=
  { download_required := SauceNao.download_required
  , run := fun url => (sn.search_image url).map (fun _ => { tags := ∅, source := ∅ }) }

/-- `ReverseSearch.__init__` (core.py lines 32-46).  The Danbooru, E621, Iqdb
and Paheal constructors are not among the sources; only the constructed
engine value matters to the dispatcher, so each constructed instance is a
parameter (modelled from the spec).  The SauceNao instance is the embedded
class, built from the configured API key.  Insertion order is that of the
source: danbooru, e621, iqdb (under `min_score`), saucenao (under
`saucenao_api_key`), then paheal unconditionally. -/
def mkReverseSearch (danbooruE e621E iqdbE pahealE : Engine)
    (cfg : ReverseSearchConfig) : ReverseSearch :=
  { accessible_engines :=
      (if cfg.min_score.isSome then
        (if cfg.danbooru_username.isSome && cfg.danbooru_api_key.isSome then
          [("danbooru", danbooruE)] else [])
        ++ (if cfg.e621_username.isSome && cfg.app_name.isSome && cfg.version.isSome then
          [("e621", e621E)] else [])
        ++ [("iqdb", iqdbE)]
      else [])
      ++ (match cfg.saucenao_api_key with
          | some k => [("saucenao", SauceNao.engine { api_key := k })]
          | none => [])
      ++ [("paheal", pahealE)] }

/-- The registry entries `search_image_source` actually visits: those not
skipped by the download gate (core.py lines 91-93). -/
def searchedKeys (reg : List (String × Engine)) (download : Bool) :
    List (String × Engine) :=
  reg.filter (fun p => !(p.2.download_required && !download))

/-- Whether an `Except` value carries a result. -/
def isOkE {α : Type} : Except PyError α → Bool
  | Except.ok _ => true
  | Except.error _ => false

/-- The conditions under which the loop body of `search_image_source` succeeds
for one registry entry: the key passes the `_all_engines` check of
`search_image` and the engine's search returns instead of raising. -/
def engineOk (url : String) (p : String × Engine) : Prop :=
  ReverseSearch.all_engines.contains p.1 = true ∧ isOkE (p.2.run url) = true

instance (url : String) (p : String × Engine) : Decidable (engineOk url p) :=
  inferInstanceAs (Decidable (_ ∧ _))

/-- The tag set of an engine's successful search (empty on an exception; only
read where success is assumed). -/
def runTags (url : String) (p : String × Engine) : Finset String :=
  match p.2.run url with
  | Except.ok r => r.tags
  | Except.error _ => ∅

/-- The source set of an engine's successful search; see `runTags`. -/
def runSource (url : String) (p : String × Engine) : Finset String :=
  match p.2.run url with
  | Except.ok r => r.source
  | Except.error _ => ∅

/-- The callback record produced for one registry entry. -/
def callOf (url : String) (p : String × Engine) : CallbackCall :=
  { booru := p.1, tags := runTags url p, source := runSource url p }

/-- Finite union of a set-valued function over a list of registry entries. -/
def unionMap (f : (String × Engine) → Finset String) :
    List (String × Engine) → Finset String
  | [] => ∅
  | p :: rest => f p ∪ unionMap f rest

/-- The keys of the registry, in insertion order. -/
def engineNames (rs : ReverseSearch) : List String :=
  rs.accessible_engines.map Prod.fst

/-- Concrete engine fixture: no download needed, one tag and one source. -/
def engA : Engine :=
  { download_required := false
  , run := fun _ => Except.ok { tags := {"tagA"}, source := {"srcA"} } }

/-- Concrete engine fixture: no download needed, one tag, empty source set. -/
def engB : Engine :=
  { download_required := false
  , run := fun _ => Except.ok { tags := {"tagB"}, source := ∅ } }

/-- Concrete engine fixture: requires a download, one tag. -/
def engD : Engine :=
  { download_required := true
  , run := fun _ => Except.ok { tags := {"tagD"}, source := ∅ } }

/-- Concrete engine fixture for delegation: one tag. -/
def engW : Engine :=
  { download_required := false
  , run := fun _ => Except.ok { tags := {"tagW"}, source := ∅ } }

/-- A two-engine registry, in one order. -/
def rsAB : ReverseSearch := ⟨[("danbooru", engA), ("e621", engB)]⟩

/-- The same two engines, in the other order. -/
def rsBA : ReverseSearch := ⟨[("e621", engB), ("danbooru", engA)]⟩

/-- A registry holding only a download-requiring engine. -/
def rsD : ReverseSearch := ⟨[("iqdb", engD)]⟩

/-- A registry holding only a download-requiring engine that yields a tag,
for exercising the `download` flag of `reverse_search`. -/
def rsC8 : ReverseSearch := ⟨[("paheal", engD)]⟩

theorem isOkE_iff {α : Type} (x : Except PyError α) :
    isOkE x = true ↔ ∃ r, x = Except.ok r := by
  cases x <;> simp [isOkE]

theorem mem_unionMap (f : (String × Engine) → Finset String)
    (l : List (String × Engine)) (x : String) :
    x ∈ unionMap f l ↔ ∃ p ∈ l, x ∈ f p := by
  induction l with
  | nil => simp [unionMap]
  | cons p rest ih => simp [unionMap, ih]

theorem unionMap_perm (f : (String × Engine) → Finset String)
    {l1 l2 : List (String × Engine)} (h : l1.Perm l2) :
    unionMap f l1 = unionMap f l2 := by
  ext x
  simp only [mem_unionMap]
  exact ⟨fun ⟨p, hp, hx⟩ => ⟨p, h.mem_iff.mp hp, hx⟩,
    fun ⟨p, hp, hx⟩ => ⟨p, h.mem_iff.mpr hp, hx⟩⟩

theorem sourceMerge (a s : Finset String) :
    (if s.Nonempty then a ∪ s else a) = a ∪ s := by
  by_cases h : s.Nonempty
  · simp [h]
  · simp [Finset.not_nonempty_iff_eq_empty.mp h]

theorem searchedKeys_true (reg : List (String × Engine)) :
    searchedKeys reg true = reg := by
  simp [searchedKeys]

theorem searchedKeys_cons_skip {booru : String} {engine : Engine}
    {rest : List (String × Engine)} {download : Bool}
    (h : (engine.download_required && !download) = true) :
    searchedKeys ((booru, engine) :: rest) download = searchedKeys rest download := by
  obtain ⟨h1, h3⟩ : engine.download_required = true ∧ (!download) = true := by
    simpa using h
  have h2 : download = false := by
    cases download
    · rfl
    · simp at h3
  subst h2
  simp [searchedKeys, h1]

theorem searchedKeys_cons_keep {booru : String} {engine : Engine}
    {rest : List (String × Engine)} {download : Bool}
    (h : (engine.download_required && !download) = false) :
    searchedKeys ((booru, engine) :: rest) download
      = (booru, engine) :: searchedKeys rest download := by
  cases hdr : engine.download_required
  · simp [searchedKeys, hdr]
  · cases hdl : download
    · rw [hdr, hdl] at h
      simp at h
    · simp [searchedKeys, hdr, hdl]

theorem sisLoop_ok_append (url : String) (download hasCallback : Bool)
    (l2 l1 : List (String × Engine)) :
    ∀ (tags source : Finset String) (inv : List String) (calls : List CallbackCall),
      (∀ p ∈ searchedKeys l1 download, engineOk url p) →
      sisLoop url download hasCallback (l1 ++ l2) tags source inv calls =
        sisLoop url download hasCallback l2
          (tags ∪ unionMap (runTags url) (searchedKeys l1 download))
          (source ∪ unionMap (runSource url) (searchedKeys l1 download))
          (inv ++ (searchedKeys l1 download).map Prod.fst)
          (calls ++ (if hasCallback then
            (searchedKeys l1 download).map (callOf url) else [])) := by
  induction l1 with
  | nil => intro tags source inv calls _; simp [searchedKeys, unionMap]
  | cons p rest ih =>
    obtain ⟨booru, engine⟩ := p
    intro tags source inv calls h
    by_cases hskip : (engine.download_required && !download) = true
    · have hsk : searchedKeys ((booru, engine) :: rest) download
          = searchedKeys rest download := searchedKeys_cons_skip hskip
      have h' : ∀ q ∈ searchedKeys rest download, engineOk url q := by
        intro q hq
        exact h q (by rw [hsk]; exact hq)
      have hstep : sisLoop url download hasCallback (((booru, engine) :: rest) ++ l2)
          tags source inv calls
          = sisLoop url download hasCallback (rest ++ l2) tags source inv calls := by
        simp [sisLoop, hskip]
      rw [hstep, ih tags source inv calls h', hsk]
    · have hf : (engine.download_required && !download) = false := by
        cases hb : (engine.download_required && !download)
        · rfl
        · exact absurd hb hskip
      have hsk : searchedKeys ((booru, engine) :: rest) download
          = (booru, engine) :: searchedKeys rest download := searchedKeys_cons_keep hf
      have hmem : (booru, engine) ∈ searchedKeys ((booru, engine) :: rest) download := by
        rw [hsk]; exact List.mem_cons_self _ _
      obtain ⟨hcont, hok⟩ := h _ hmem
      have hcont' : ReverseSearch.all_engines.contains booru = true := hcont
      obtain ⟨r, hr⟩ := (isOkE_iff _).mp hok
      have hr' : engine.run url = Except.ok r := hr
      have hmemb : booru ∈ ReverseSearch.all_engines := by simpa using hcont'
      have h' : ∀ q ∈ searchedKeys rest download, engineOk url q := by
        intro q hq
        exact h q (by rw [hsk]; exact List.mem_cons_of_mem _ hq)
      have hrt : runTags url (booru, engine) = r.tags := by simp [runTags, hr']
      have hrs : runSource url (booru, engine) = r.source := by simp [runSource, hr']
      have hco : callOf url (booru, engine)
          = { booru := booru, tags := r.tags, source := r.source } := by
        simp [callOf, hrt, hrs]
      have hstep : sisLoop url download hasCallback (((booru, engine) :: rest) ++ l2)
          tags source inv calls
          = sisLoop url download hasCallback (rest ++ l2)
              (tags ∪ r.tags)
              (if r.source.Nonempty then source ∪ r.source else source)
              (inv ++ [booru])
              (if hasCallback then
                calls ++ [{ booru := booru, tags := r.tags, source := r.source }]
               else calls) := by
        simp [sisLoop, hf, hmemb, hr']
      rw [hstep, ih _ _ _ _ h', hsk]
      rw [sourceMerge]
      simp only [unionMap, hrt, hrs, hco, List.map_cons]
      rw [Finset.union_assoc, Finset.union_assoc, List.append_assoc]
      cases hasCallback <;> simp

theorem search_image_source_ok (rs : ReverseSearch) (url : String)
    (download hasCallback : Bool)
    (h : ∀ p ∈ searchedKeys rs.accessible_engines download, engineOk url p) :
    rs.search_image_source url download hasCallback =
      { invoked := (searchedKeys rs.accessible_engines download).map Prod.fst
      , calls := if hasCallback then
          (searchedKeys rs.accessible_engines download).map (callOf url) else []
      , outcome := Except.ok
          (unionMap (runTags url) (searchedKeys rs.accessible_engines download),
           unionMap (runSource url) (searchedKeys rs.accessible_engines download)) } := by
  have hmain := sisLoop_ok_append url download hasCallback []
    rs.accessible_engines ∅ ∅ [] [] h
  simpa [ReverseSearch.search_image_source, sisLoop] using hmain

theorem sisLoop_invoked_mem (url : String) (download hasCallback : Bool) :
    ∀ (reg : List (String × Engine)) (tags source : Finset String)
      (inv : List String) (calls : List CallbackCall) (b : String),
      b ∈ (sisLoop url download hasCallback reg tags source inv calls).invoked →
      b ∈ inv ∨ b ∈ (searchedKeys reg download).map Prod.fst := by
  intro reg
  induction reg with
  | nil =>
    intro tags source inv calls b hb
    left
    simpa [sisLoop] using hb
  | cons p rest ih =>
    obtain ⟨booru, engine⟩ := p
    intro tags source inv calls b hb
    by_cases hskip : (engine.download_required && !download) = true
    · rw [searchedKeys_cons_skip hskip]
      exact ih tags source inv calls b (by simpa [sisLoop, hskip] using hb)
    · have hf : (engine.download_required && !download) = false := by
        cases hb2 : (engine.download_required && !download)
        · rfl
        · exact absurd hb2 hskip
      rw [searchedKeys_cons_keep hf]
      have hconc : b ∈ inv ∨ b = booru
          ∨ b ∈ (searchedKeys rest download).map Prod.fst := by
        by_cases hc : booru ∈ ReverseSearch.all_engines
        · cases hrun : engine.run url with
          | error e =>
            simp [sisLoop, hf, hc, hrun] at hb
            rcases hb with hb | hb
            · exact Or.inl hb
            · exact Or.inr (Or.inl hb)
          | ok r =>
            simp [sisLoop, hf, hc, hrun] at hb
            have hrec := ih _ _ _ _ b hb
            rcases hrec with hb' | hb'
            · rcases List.mem_append.mp hb' with hb'' | hb''
              · exact Or.inl hb''
              · exact Or.inr (Or.inl (by simpa using hb''))
            · exact Or.inr (Or.inr hb')
        · simp [sisLoop, hf, hc] at hb
          rcases hb with hb | hb
          · exact Or.inl hb
          · exact Or.inr (Or.inl hb)
      simpa using hconc

/-- Claim C1 (code bug, evaluated at the failing input): on the synthetic
response of the specification, `index_parser` raises `NameError` — the
selection loop reads the bare, unbound name `source_indexes` — instead of
returning the ext-url of the rank-0 candidate; and even under the charitable
reading where that name denotes `self.source_indexes`, the reversed comparison
`source_priority < list_index`, starting from the sentinel rank 4, never
holds, so no source is ever selected and the claimed result is not produced. -/
theorem c1_index_parser_code_bug :
    SauceNao.indexParser snSynthetic = Except.error PyError.nameError
    ∧ SauceNao.indexParserSelfBound snSynthetic
        = Except.ok { tags := none, source := none }
    ∧ ({ tags := none, source := none } : SnParsed)
        ≠ ⟨none, some "https://example.test/pixiv"⟩ := by
  refine ⟨by decide, by decide, by decide⟩

/-- Claim C2: when every visited engine succeeds, the tag and source sets
returned by `search_image_source` are exactly the union of the visited
engines' per-engine tags and sources — membership in the merged sets is
equivalent to membership in some visited engine's own result, duplicates and
empty contributions cannot add entries — and the merged result is the same
for any permutation of the registry. -/
theorem c2_merge_exact_union_order_indep
    (rs rs2 : ReverseSearch) (url : String) (download hasCallback hasCallback2 : Bool)
    (h : ∀ p ∈ searchedKeys rs.accessible_engines download, engineOk url p)
    (hperm : rs.accessible_engines.Perm rs2.accessible_engines) :
    ∃ T S : Finset String,
      (rs.search_image_source url download hasCallback).outcome = Except.ok (T, S)
      ∧ (rs2.search_image_source url download hasCallback2).outcome = Except.ok (T, S)
      ∧ (∀ t, t ∈ T ↔ ∃ p ∈ searchedKeys rs.accessible_engines download, t ∈ runTags url p)
      ∧ (∀ s, s ∈ S ↔ ∃ p ∈ searchedKeys rs.accessible_engines download, s ∈ runSource url p) := by
  have hpermSK : (searchedKeys rs.accessible_engines download).Perm
      (searchedKeys rs2.accessible_engines download) := hperm.filter _
  have h2 : ∀ p ∈ searchedKeys rs2.accessible_engines download, engineOk url p := by
    intro p hp
    exact h p (hpermSK.mem_iff.mpr hp)
  refine ⟨unionMap (runTags url) (searchedKeys rs.accessible_engines download),
          unionMap (runSource url) (searchedKeys rs.accessible_engines download),
          ?_, ?_, ?_, ?_⟩
  · rw [search_image_source_ok rs url download hasCallback h]
  · rw [search_image_source_ok rs2 url download hasCallback2 h2,
      unionMap_perm (runTags url) hpermSK, unionMap_perm (runSource url) hpermSK]
  · intro t
    exact mem_unionMap _ _ t
  · intro s
    exact mem_unionMap _ _ s

theorem c2_witness :
    ∃ T S : Finset String,
      (rsAB.search_image_source "u" false true).outcome = Except.ok (T, S)
      ∧ (rsBA.search_image_source "u" false false).outcome = Except.ok (T, S)
      ∧ (∀ t, t ∈ T ↔ ∃ p ∈ searchedKeys rsAB.accessible_engines false, t ∈ runTags "u" p)
      ∧ (∀ s, s ∈ S ↔ ∃ p ∈ searchedKeys rsAB.accessible_engines false, s ∈ runSource "u" p) :=
  c2_merge_exact_union_order_indep rsAB rsBA "u" false true false (by decide)
    (List.Perm.swap ("e621", engB) ("danbooru", engA) [])

/-- Claim C3: an activated engine whose `download_required` flag is true is
never searched by `search_image_source` with `download=false`; with
`download=true` (and every engine call succeeding, so the loop reaches it) it
is searched. -/
theorem c3_download_required_gate (rs : ReverseSearch) (url : String)
    (hasCallback : Bool) (p : String × Engine)
    (hnd : (rs.accessible_engines.map Prod.fst).Nodup)
    (hp : p ∈ rs.accessible_engines)
    (hdr : p.2.download_required = true) :
    p.1 ∉ (rs.search_image_source url false hasCallback).invoked
    ∧ ((∀ q ∈ rs.accessible_engines, engineOk url q) →
        p.1 ∈ (rs.search_image_source url true hasCallback).invoked) := by
  constructor
  · intro hmem
    have hcases := sisLoop_invoked_mem url false hasCallback rs.accessible_engines
      ∅ ∅ [] [] p.1 (by simpa [ReverseSearch.search_image_source] using hmem)
    rcases hcases with hin | hin
    · simp at hin
    · obtain ⟨q, hqmem, hqfst⟩ := List.mem_map.mp hin
      have hqreg : q ∈ rs.accessible_engines := List.mem_of_mem_filter hqmem
      have hqp : q = p := List.inj_on_of_nodup_map hnd hqreg hp hqfst
      subst hqp
      have hpred := List.of_mem_filter hqmem
      rw [hdr] at hpred
      simp at hpred
  · intro hok
    have h' : ∀ q ∈ searchedKeys rs.accessible_engines true, engineOk url q := by
      rw [searchedKeys_true]
      exact hok
    rw [search_image_source_ok rs url true hasCallback h']
    simp only [searchedKeys_true]
    exact List.mem_map_of_mem Prod.fst hp

theorem c3_witness :
    "iqdb" ∉ (rsD.search_image_source "u" false true).invoked
    ∧ "iqdb" ∈ (rsD.search_image_source "u" true true).invoked :=
  ⟨(c3_download_required_gate rsD "u" true ("iqdb", engD)
      (by decide) (List.mem_cons_self _ _) rfl).1,
   (c3_download_required_gate rsD "u" true ("iqdb", engD)
      (by decide) (List.mem_cons_self _ _) rfl).2 (by decide)⟩

/-- Claim C4: for every engine name outside the fixed enumeration, every
registry and every url, `search_image` fails with
`NotAValidEngineException`. -/
theorem c4_invalid_engine_name (rs : ReverseSearch) (booru url : String)
    (h : booru ∉ ReverseSearch.all_engines) :
    rs.search_image booru url = Except.error PyError.notAValidEngine := by
  simp [ReverseSearch.search_image, h]

theorem c4_witness :
    ReverseSearch.search_image ⟨[]⟩ "nO" "irrelevant"
      = Except.error PyError.notAValidEngine :=
  c4_invalid_engine_name ⟨[]⟩ "nO" "irrelevant" (by decide)

/-- Claim C5: for every engine name inside the fixed enumeration, if the name
is absent from `accessible_engines` then `search_image` fails with
`MissingAPIKeysException`; otherwise it delegates to the registered engine and
returns that engine's result unchanged. -/
theorem c5_valid_engine_dispatch (rs : ReverseSearch) (booru url : String)
    (h : booru ∈ ReverseSearch.all_engines) :
    (rs.accessible_engines.lookup booru = none →
      rs.search_image booru url = Except.error PyError.missingAPIKeys)
    ∧ (∀ engine, rs.accessible_engines.lookup booru = some engine →
      rs.search_image booru url = engine.run url) := by
  constructor
  · intro hnone
    simp [ReverseSearch.search_image, h, hnone]
  · intro engine hsome
    simp [ReverseSearch.search_image, h, hsome]

theorem c5_witness :
    ReverseSearch.search_image ⟨[]⟩ "danbooru" "u" = Except.error PyError.missingAPIKeys
    ∧ ReverseSearch.search_image ⟨[("danbooru", engW)]⟩ "danbooru" "u" = engW.run "u" :=
  ⟨(c5_valid_engine_dispatch ⟨[]⟩ "danbooru" "u" (by decide)).1 rfl,
   (c5_valid_engine_dispatch ⟨[("danbooru", engW)]⟩ "danbooru" "u" (by decide)).2 engW rfl⟩

/-- Claim C6: after construction, an engine name is in the registry iff all of
its required configuration fields are present — danbooru needs `min_score`,
`danbooru_username` and `danbooru_api_key`; e621 needs `min_score`,
`e621_username`, `app_name` and `version`; iqdb needs `min_score`; saucenao
needs `saucenao_api_key`; paheal needs nothing and is always present — no name
outside the enumeration is ever registered, and the dispatch operations return
the registry state unchanged. -/
theorem c6_registry_iff_config (d e i p : Engine) (cfg : ReverseSearchConfig) :
    ("danbooru" ∈ engineNames (mkReverseSearch d e i p cfg)
      ↔ (cfg.min_score.isSome = true ∧ cfg.danbooru_username.isSome = true
          ∧ cfg.danbooru_api_key.isSome = true))
    ∧ ("e621" ∈ engineNames (mkReverseSearch d e i p cfg)
      ↔ (cfg.min_score.isSome = true ∧ cfg.e621_username.isSome = true
          ∧ cfg.app_name.isSome = true ∧ cfg.version.isSome = true))
    ∧ ("iqdb" ∈ engineNames (mkReverseSearch d e i p cfg) ↔ cfg.min_score.isSome = true)
    ∧ ("saucenao" ∈ engineNames (mkReverseSearch d e i p cfg)
      ↔ cfg.saucenao_api_key.isSome = true)
    ∧ "paheal" ∈ engineNames (mkReverseSearch d e i p cfg)
    ∧ (∀ n ∈ engineNames (mkReverseSearch d e i p cfg), n ∈ ReverseSearch.all_engines)
    ∧ (∀ url booru download hasCallback,
        (ReverseSearch.search_image_source_st (mkReverseSearch d e i p cfg)
            url download hasCallback).2 = mkReverseSearch d e i p cfg
        ∧ (ReverseSearch.search_image_st (mkReverseSearch d e i p cfg) booru url).2
            = mkReverseSearch d e i p cfg
        ∧ (ReverseSearch.reverse_search_st (mkReverseSearch d e i p cfg)
            url hasCallback download).2 = mkReverseSearch d e i p cfg) := by
  obtain ⟨ms, du, dk, eu, an, vv, sk⟩ := cfg
  cases ms <;> cases du <;> cases dk <;> cases eu <;> cases an <;> cases vv <;> cases sk <;>
    refine ⟨?_, ?_, ?_, ?_, ?_, ?_, fun url booru download hasCallback => ⟨rfl, rfl, rfl⟩⟩ <;>
    simp [mkReverseSearch, engineNames, ReverseSearch.all_engines]

/-- Claim C7: with a callback supplied and every visited engine succeeding,
the callback invocations of `search_image_source` are exactly one per visited
engine, in dispatch order, each carrying that engine's name and that engine's
own per-engine tag set and source — not the accumulated merged result — so
their count equals the number of engines searched after skip filtering. -/
theorem c7_callback_per_engine (rs : ReverseSearch) (url : String) (download : Bool)
    (h : ∀ p ∈ searchedKeys rs.accessible_engines download, engineOk url p) :
    (rs.search_image_source url download true).calls
      = (searchedKeys rs.accessible_engines download).map (callOf url)
    ∧ (rs.search_image_source url download true).calls.length
      = (searchedKeys rs.accessible_engines download).length := by
  have hok := search_image_source_ok rs url download true h
  constructor
  · simp [hok]
  · simp [hok]

theorem c7_witness :
    (rsAB.search_image_source "u" false true).calls
      = (searchedKeys rsAB.accessible_engines false).map (callOf "u")
    ∧ (rsAB.search_image_source "u" false true).calls.length
      = (searchedKeys rsAB.accessible_engines false).length :=
  c7_callback_per_engine rsAB "u" false (by decide)

/-- Claim C8, counterexample: `reverse_search` does NOT forward its `download`
argument to `search_image_source` (core.py line 54 calls it without the
flag), so with a download-requiring engine in the registry,
`reverse_search(url, None, download=True)` returns the empty tag set while
the tags component of `search_image_source(url, None, download=True)` holds
the engine's tag. -/
theorem c8_counterexample_download_flag :
    ¬ (rsC8.reverse_search "u" false true
        = (rsC8.search_image_source "u" true false).outcome.map Prod.fst) := by
  decide

/-- Claim C8, amended: `reverse_search(url, callback, download)` returns
exactly the tags component of `search_image_source` called with the same url
and callback but with `download=False` — its own `download` argument is
ignored, not forwarded. -/
theorem c8_amended_reverse_search_ignores_download (rs : ReverseSearch)
    (url : String) (hasCallback download : Bool) :
    rs.reverse_search url hasCallback download
      = (rs.search_image_source url false hasCallback).outcome.map Prod.fst := by
  cases ho : (rs.search_image_source url false hasCallback).outcome <;>
    simp [ReverseSearch.reverse_search, ho, Except.map]

/-- Claim C9: for every tag argument, the SauceNao engine's `search_tag`
always fails with `NotAvailableSearchOption`; it never returns a result. -/
theorem c9_search_tag_always_fails (sn : SauceNao) (tag : String) :
    sn.search_tag tag = Except.error PyError.notAvailableSearchOption := rfl

/-- Claim C10: `SauceNao.search_image` subscripts the unawaited coroutine
returned by `SauceNao.search_image_source`, so every call fails with
`TypeError`; consequently a `search_image_source` aggregation that reaches an
activated saucenao engine — every engine before it succeeding, the saucenao
engine itself never skipped since its `download_required` is false — aborts
with that `TypeError`. -/
theorem c10_saucenao_search_image_aborts :
    (∀ (sn : SauceNao) (url : String),
      sn.search_image url = Except.error PyError.typeError)
    ∧ (∀ (sn : SauceNao) (reg1 reg2 : List (String × Engine)) (url : String)
        (download hasCallback : Bool),
        (∀ p ∈ searchedKeys reg1 download, engineOk url p) →
        (ReverseSearch.search_image_source
            ⟨reg1 ++ ("saucenao", SauceNao.engine sn) :: reg2⟩
            url download hasCallback).outcome = Except.error PyError.typeError) := by
  constructor
  · intro sn url
    rfl
  · intro sn reg1 reg2 url download hasCallback h
    have happ := sisLoop_ok_append url download hasCallback
      (("saucenao", SauceNao.engine sn) :: reg2) reg1 ∅ ∅ [] [] h
    show (sisLoop url download hasCallback
        (reg1 ++ ("saucenao", SauceNao.engine sn) :: reg2) ∅ ∅ [] []).outcome
      = Except.error PyError.typeError
    rw [happ]
    have hdr : ((SauceNao.engine sn).download_required && !download) = false := rfl
    have hrun : (SauceNao.engine sn).run url = Except.error PyError.typeError := rfl
    simp [sisLoop, hdr, hrun, ReverseSearch.all_engines]

theorem c10_witness :
    SauceNao.search_image ⟨"key"⟩ "u" = Except.error PyError.typeError
    ∧ (ReverseSearch.search_image_source ⟨[("saucenao", SauceNao.engine ⟨"key"⟩)]⟩
        "u" false false).outcome = Except.error PyError.typeError :=
  ⟨c10_saucenao_search_image_aborts.1 ⟨"key"⟩ "u",
   c10_saucenao_search_image_aborts.2 ⟨"key"⟩ [] [] "u" false false
     (by simp [searchedKeys])⟩

theorem c6_witness :
    "paheal" ∈ engineNames (mkReverseSearch engA engB engD engW
      ⟨none, none, none, none, none, none, none⟩)
    ∧ "paheal" ∈ ReverseSearch.all_engines :=
  ⟨(c6_registry_iff_config engA engB engD engW
      ⟨none, none, none, none, none, none, none⟩).2.2.2.2.1,
   (c6_registry_iff_config engA engB engD engW
      ⟨none, none, none, none, none, none, none⟩).2.2.2.2.2.1 "paheal"
     ((c6_registry_iff_config engA engB engD engW
      ⟨none, none, none, none, none, none, none⟩).2.2.2.2.1)⟩
